import Mathlib

set_option autoImplicit false

namespace Crawler

/-! Shallow embedding of the authentication-resolution and session-capture
subsystem of the searxNcrawl repository (src/crawler/session_capture.py and
the auth resolver contract).  Pure data is translated directly; the
filesystem, the clock, and the browser driver are modelled as explicit
state/trace parameters. -/

/-- JSON values as obtained from parsing a UTF-8 JSON document.  Numbers are
modelled as integers; objects keep their key/value pairs in order. -/
inductive Json where
  | null
  | bool (b : Bool)
  | num (n : Int)
  | str (s : String)
  | arr (elems : List Json)
  | obj (entries : List (String × Json))

/-- Python isinstance(x, dict) on a parsed JSON value. -/
def Json.isObj : Json → Bool
  | .obj _ => true
  | _ => false

/-- Python str.strip(): drop leading and trailing whitespace. -/
def pyStrip (s : String) : String :=
  String.mk (((s.data.dropWhile Char.isWhitespace).reverse.dropWhile
    Char.isWhitespace).reverse)

/-- Canonical absolute paths are lists of plain segments (none of them ".",
"..", or empty). -/
abbrev CanonPath := List String

/-- Process environment seen by pathlib: the current working directory and
the home directory, both canonical. -/
structure Env where
  cwd : CanonPath
  home : CanonPath

/-- A path argument as the Python code receives it: an absolute or relative
spelling whose segments may still contain "." and "..", optionally rooted at
the user home marker (a leading tilde). -/
structure PathInput where
  absolute : Bool
  homeRel : Bool
  segs : List String
deriving DecidableEq

/-- One step of Path.resolve(strict=False): "." and empty segments vanish,
".." drops the previous segment and is a no-op at the filesystem root. -/
def normStep (acc : List String) (s : String) : List String :=
  if s = "." ∨ s = "" then acc
  else if s = ".." then acc.dropLast
  else acc ++ [s]

/-- Path normalization used by Path.resolve(strict=False) (symlinks are not
modelled). -/
def normalizeSegs (segs : List String) : CanonPath :=
  segs.foldl normStep []

/-- The absolute directory a path spelling is interpreted against:
expanduser roots a tilde spelling at the home directory, other relative
spellings are resolved against the current working directory. -/
def pathRoot (env : Env) (p : PathInput) : CanonPath :=
  if p.homeRel then env.home
  else if p.absolute then []
  else env.cwd

/-- Embeds _canonicalize_output_path (and the resolver canonicalization of
spec 4.4): Path(value).expanduser(), prefix the cwd when relative, then
resolve(strict=False). -/
def canonicalize_output_path (env : Env) (p : PathInput) : CanonPath :=
  normalizeSegs (pathRoot env p ++ p.segs)

/-- str(path) for a canonical absolute path. -/
def renderPath (p : CanonPath) : String :=
  "/" ++ String.intercalate "/" p

/-- A non-empty path argument, or the empty/whitespace-only string that the
non-empty checks reject. -/
inductive PathArg where
  | blank
  | path (p : PathInput)
deriving DecidableEq

/-- Content of a filesystem entry.  A regular file is modelled by the JSON
parse of its text: a file written via json.dumps(payload) parses back to
payload, and a file holding non-JSON text parses to none. -/
inductive FsEntry where
  | dir
  | file (parsed : Option Json)

/-- Directory test on an entry (Path.is_dir for an existing path). -/
def FsEntry.isDir : FsEntry → Bool
  | .dir => true
  | .file _ => false

/-- A flat view of the filesystem: an association list from canonical paths
to entries in which the newest binding of a path wins. -/
def Fs := List (CanonPath × FsEntry)

/-- Read the entry at a path (none when the path does not exist). -/
def Fs.look : Fs → CanonPath → Option FsEntry
  | [], _ => none
  | (q, e) :: rest, p => if q = p then some e else Fs.look rest p

/-- Create or overwrite the entry at a path. -/
def Fs.write (fs : Fs) (p : CanonPath) (e : FsEntry) : Fs :=
  (p, e) :: fs

/-- Path.exists(). -/
def Fs.pathExists (fs : Fs) (p : CanonPath) : Bool :=
  (fs.look p).isSome

/-- Path.is_dir(). -/
def Fs.isDir (fs : Fs) (p : CanonPath) : Bool :=
  match fs.look p with
  | some e => e.isDir
  | none => false

/-- The Python exception classes visible to the session-capture subsystem:
the stdlib bases, re.error (raised by re.compile on a malformed pattern),
and the two classes declared in src/crawler/session_capture.py lines 16-21. -/
inductive PyClass where
  | baseExceptionClass
  | exceptionClass
  | valueErrorClass
  | reErrorClass
  | sessionCaptureErrorClass
  | sessionCaptureConfigErrorClass
deriving DecidableEq

/-- Immediate base class of each modelled class, following
class SessionCaptureError(ValueError) and
class SessionCaptureConfigError(SessionCaptureError) in the source plus the
stdlib hierarchy. -/
def PyClass.base : PyClass → Option PyClass
  | .baseExceptionClass => none
  | .exceptionClass => some .baseExceptionClass
  | .valueErrorClass => some .exceptionClass
  | .reErrorClass => some .exceptionClass
  | .sessionCaptureErrorClass => some .valueErrorClass
  | .sessionCaptureConfigErrorClass => some .sessionCaptureErrorClass

/-- The class and all its ancestors, up to the given depth. -/
def PyClass.ancestors : Nat → PyClass → List PyClass
  | 0, c => [c]
  | n + 1, c =>
    c :: (match c.base with
          | some b => PyClass.ancestors n b
          | none => [])

/-- Python issubclass on the modelled hierarchy (the chain has depth at most
four, so fuel 8 is exact). -/
def PyClass.isSubclassOf (c d : PyClass) : Bool :=
  (PyClass.ancestors 8 c).contains d

/-- An exception raised by the subsystem: which class it instantiates
together with its message. -/
inductive CaptureErr where
  | configError (msg : String)
  | runtimeError (msg : String)
  | regexError (msg : String)
deriving DecidableEq

/-- The Python class of a raised exception: SessionCaptureConfigError for
configError, SessionCaptureError for runtimeError, re.error for regexError. -/
def CaptureErr.pyClass : CaptureErr → PyClass
  | .configError _ => .sessionCaptureConfigErrorClass
  | .runtimeError _ => .sessionCaptureErrorClass
  | .regexError _ => .reErrorClass

/-- Whether a raised exception is the config/usage kind. -/
def CaptureErr.isConfig : CaptureErr → Bool
  | .configError _ => true
  | _ => false

/-- CaptureStatus literal from the source. -/
inductive CaptureStatus where
  | success
  | timeout
  | abort
deriving DecidableEq

/-- Result contract for isolated session capture (dataclass CaptureResult). -/
structure CaptureResult where
  status : CaptureStatus
  message : String
  storage_state_path : Option String := none
  final_url : Option String := none
deriving DecidableEq

/-- A selectable CDP session candidate (dataclass CdpSessionEntry). -/
structure CdpSessionEntry where
  context_index : Nat
  page_index : Option Nat
  url : String
  title : Option String := none
deriving DecidableEq

/-- An open page in a running browser: its URL and the outcome of
await page.title(), with none modelling a title lookup that raises. -/
structure PageState where
  url : String
  title : Option String
deriving DecidableEq

/-- A browsing context of a running browser: its open pages and the value
await context.storage_state() would deliver. -/
structure BrowserContext where
  pages : List PageState
  storage_state : Json

/-- A running browser reachable over CDP. -/
structure Browser where
  contexts : List BrowserContext

/-- The CDP endpoint as seen from this process: none when connecting fails,
otherwise the running browser reachable there. -/
abbrev CdpEndpoint := Option Browser

/-- Embeds _write_storage_state: reject a payload that is not a dict, create
parent directories, serialize the payload into the file, then re-read and
re-parse the file and require a JSON object. -/
def write_storage_state (fs : Fs) (path : CanonPath) (payload : Option Json) :
    Except CaptureErr Fs :=
  match payload with
  | some (Json.obj entries) =>
    let fs1 := fs.write path (.file (some (Json.obj entries)))
    match fs1.look path with
    | some (.file (some parsed)) =>
      if parsed.isObj then .ok fs1
      else .error (.runtimeError "Written storage_state is not a JSON object")
    | _ => .error (.runtimeError "Written storage_state is not a JSON object")
  | _ => .error (.runtimeError "Captured storage_state must be a JSON object")

/-- Embeds _validate_output_target: an existing target needs overwrite, and
an existing directory target is always rejected. -/
def validate_output_target (fs : Fs) (path : CanonPath) (overwrite : Bool) :
    Except CaptureErr Unit :=
  if fs.pathExists path && !overwrite then
    .error (.configError ("storage_state output already exists: " ++
      renderPath path ++ " (use overwrite=True to replace)"))
  else if fs.pathExists path && fs.isDir path then
    .error (.configError ("storage_state output path is a directory: " ++
      renderPath path))
  else .ok ()

/-- Embeds _normalize_cdp_url. -/
def normalize_cdp_url (cdp_url : String) : Except CaptureErr String :=
  if pyStrip cdp_url = "" then
    .error (.configError "cdp_url must be a non-empty URL")
  else .ok (pyStrip cdp_url)

/-- Embeds list_cdp_sessions_async: normalize the endpoint URL, require the
driver import, connect, then accumulate one entry per page of each context
in order, with a single placeholder entry for a context without pages; the
per-page title is whatever await page.title() delivered (none on failure). -/
def list_cdp_sessions_async (cdp_url : String) (pw_available : Bool)
    (endpoint : CdpEndpoint) : Except CaptureErr (List CdpSessionEntry) :=
  match normalize_cdp_url cdp_url with
  | .error e => .error e
  | .ok target =>
    if !pw_available then
      .error (.runtimeError
        "Playwright is required for CDP session listing. Install browsers with playwright install chromium.")
    else
      match endpoint with
      | none => .error (.runtimeError ("Failed to connect to CDP endpoint: " ++ target))
      | some browser =>
        .ok (browser.contexts.enum.foldl
          (fun acc ce =>
            if ce.2.pages.isEmpty then
              acc ++ [{ context_index := ce.1, page_index := none, url := "", title := none }]
            else
              acc ++ ce.2.pages.enum.map (fun pe =>
                { context_index := ce.1, page_index := some pe.1,
                  url := pe.2.url, title := pe.2.title }))
          [])

/-- Embeds export_cdp_storage_state_async: validate the output path, the
context index sign, the endpoint URL and the output target, connect, require
at least one context and an in-range index, record the first open page URL
(empty URL coerced to none), write the storage state, and report success. -/
def export_cdp_storage_state_async (output_path : PathArg) (cdp_url : String)
    (context_index : Int) (overwrite : Bool) (pw_available : Bool) (env : Env)
    (fs : Fs) (endpoint : CdpEndpoint) : Except CaptureErr (Fs × CaptureResult) :=
  match output_path with
  | .blank => .error (.configError "output_path must be a non-empty path")
  | .path p =>
    if context_index < 0 then
      .error (.configError "context_index must be greater than or equal to 0")
    else
      match normalize_cdp_url cdp_url with
      | .error e => .error e
      | .ok target =>
        let output := canonicalize_output_path env p
        match validate_output_target fs output overwrite with
        | .error e => .error e
        | .ok _ =>
          if !pw_available then
            .error (.runtimeError
              "Playwright is required for CDP export. Install browsers with playwright install chromium.")
          else
            match endpoint with
            | none => .error (.runtimeError ("Failed to connect to CDP endpoint: " ++ target))
            | some browser =>
              match browser.contexts with
              | [] => .error (.runtimeError
                  ("No browser contexts available at CDP endpoint: " ++ target))
              | c0 :: rest =>
                if context_index ≥ ((c0 :: rest).length : Int) then
                  .error (.configError ("context_index out of range: " ++
                    toString context_index ++ " (available: 0.." ++
                    toString ((c0 :: rest).length - 1) ++ ")"))
                else
                  let ctx := (c0 :: rest).getD context_index.toNat c0
                  let final_url : Option String :=
                    match ctx.pages with
                    | [] => none
                    | pg :: _ => if pg.url = "" then none else some pg.url
                  match write_storage_state fs output (some ctx.storage_state) with
                  | .error e => .error e
                  | .ok fs2 =>
                    .ok (fs2,
                      { status := .success,
                        message := "Exported storage_state from running CDP browser (context=" ++
                          toString context_index ++ ").",
                        storage_state_path := some (renderPath output),
                        final_url := final_url })

/-- A completion-URL pattern as handed to re.compile: its raw text, whether
re.compile accepts it, and the compiled search behaviour (substring search,
not a full-string match). -/
structure PatternInput where
  raw : String
  compiles : Bool
  search : String → Bool

/-- One iteration of the polling loop as observed from the page: whether the
page has been closed, the current URL, the decision the confirmation
callback returns at this tick, whether collecting the storage state raises,
the storage state the context would deliver, and the elapsed monotonic time
at the timeout check of this tick. -/
structure PageTick where
  closed : Bool
  url : String
  confirm : Bool
  state_raises : Bool
  state : Json
  elapsed : ℚ

/-- Decimal-free rendering of a rational used where the Python code formats
a float into a message. -/
def ratRepr (q : ℚ) : String :=
  toString q.num ++ "/" ++ toString q.den

/-- The plain dict the capture flow hands back to capture_session_async. -/
structure FlowDict where
  status : String
  message : String
  final_url : Option String
  storage_state : Option Json := none

/-- The polling loop of _execute_capture_flow.  The result is none when the
supplied trace ends before a terminal outcome is reached (the real loop
would keep polling). -/
def capture_poll_loop (has_callback : Bool) (search : String → Bool)
    (timeout_seconds : ℚ) : List PageTick → Except CaptureErr (Option FlowDict)
  | [] => .ok none
  | t :: rest =>
    if t.closed then
      .ok (some { status := "abort",
                  message := "Capture aborted: browser page was closed before completion.",
                  final_url := none })
    else
      let current_url := t.url
      if search current_url && (if has_callback then t.confirm else true) then
        if t.state_raises then
          .error (.runtimeError "storage_state collection failed")
        else
          .ok (some { status := "success",
                      message := "Capture completed and storage_state collected.",
                      final_url := some current_url,
                      storage_state := some t.state })
      else if t.elapsed ≥ timeout_seconds then
        .ok (some { status := "timeout",
                    message := "Capture timed out before completion URL was observed (timeout=" ++
                      ratRepr timeout_seconds ++ "s).",
                    final_url := some current_url })
      else capture_poll_loop has_callback search timeout_seconds rest

/-- Whether the browser process launched by the flow is still running at the
moment the flow call returns or its exception propagates. -/
structure ResState where
  browser_live : Bool
deriving DecidableEq

/-- Semantics of try/finally: the finalizer runs on the normal and on the
exceptional exit alike, before the result propagates. -/
def tryFinally {α : Type} (body : ResState → Except CaptureErr α × ResState)
    (fin : ResState → ResState) (r : ResState) : Except CaptureErr α × ResState :=
  let br := body r
  (br.1, fin br.2)

/-- Semantics of async with async_playwright(): when the block exits,
normally or with an exception, the driver stops and every browser it
launched is closed. -/
def withPlaywright {α : Type} (body : ResState → Except CaptureErr α × ResState)
    (r : ResState) : Except CaptureErr α × ResState :=
  let br := body r
  (br.1, { browser_live := false })

/-- Driver behaviour outside the subsystem during one capture flow: whether
the playwright import succeeds, which driver calls raise, and the page
observations of the successive polling iterations. -/
structure FlowWorld where
  pw_available : Bool
  launch_raises : Bool
  new_context_raises : Bool
  new_page_raises : Bool
  goto_raises : Bool
  trace : List PageTick

/-- Embeds _execute_capture_flow: import the driver, compile the completion
pattern, start the driver, launch a browser, open a context and a page,
optionally navigate to the start URL inside the try block, poll, and close
the browser in the finally block.  The second component reports whether the
launched browser is still live when the call exits. -/
def execute_capture_flow (start_url : Option String)
    (completion_url_pattern : PatternInput) (timeout_seconds : ℚ)
    (_poll_interval : ℚ) (_headless : Bool) (has_callback : Bool)
    (world : FlowWorld) : Except CaptureErr (Option FlowDict) × ResState :=
  let r0 : ResState := { browser_live := false }
  if !world.pw_available then
    (.error (.runtimeError
      "Playwright is required for session capture. Install browsers with playwright install chromium."), r0)
  else if !completion_url_pattern.compiles then
    (.error (.regexError ("invalid completion_url_pattern: " ++
      completion_url_pattern.raw)), r0)
  else
    withPlaywright
      (fun r =>
        if world.launch_raises then
          (.error (.runtimeError "browser launch failed"), r)
        else
          let r1 : ResState := { browser_live := true }
          if world.new_context_raises then
            (.error (.runtimeError "new_context failed"), r1)
          else if world.new_page_raises then
            (.error (.runtimeError "new_page failed"), r1)
          else
            tryFinally
              (fun r2 =>
                if start_url.isSome && world.goto_raises then
                  (.error (.runtimeError "goto failed"), r2)
                else
                  (capture_poll_loop has_callback completion_url_pattern.search
                    timeout_seconds world.trace, r2))
              (fun r2 => { r2 with browser_live := false })
              r1)
      r0

/-- Embeds capture_session_async: pre-flight validation of the output path,
the completion pattern, the timeout and the poll interval, canonicalize and
validate the output target, run the interactive flow, then translate the
flow dict into a CaptureResult, writing the storage state only on success.
The ok-none result stands for a run whose trace has not terminated yet. -/
def capture_session_async (output_path : PathArg)
    (completion_url_pattern : PatternInput) (start_url : Option String)
    (timeout_seconds : ℚ) (poll_interval : ℚ) (overwrite : Bool)
    (headless : Bool) (has_callback : Bool) (env : Env) (fs : Fs)
    (world : FlowWorld) : Except CaptureErr (Option (Fs × CaptureResult)) :=
  match output_path with
  | .blank => .error (.configError "output_path must be a non-empty path")
  | .path p =>
    if pyStrip completion_url_pattern.raw = "" then
      .error (.configError "completion_url_pattern must be provided")
    else if timeout_seconds ≤ 0 then
      .error (.configError "timeout_seconds must be greater than 0")
    else if poll_interval ≤ 0 then
      .error (.configError "poll_interval must be greater than 0")
    else
      let output := canonicalize_output_path env p
      match validate_output_target fs output overwrite with
      | .error e => .error e
      | .ok _ =>
        match (execute_capture_flow start_url completion_url_pattern
            timeout_seconds poll_interval headless has_callback world).1 with
        | .error e => .error e
        | .ok none => .ok none
        | .ok (some flow) =>
          if flow.status = "success" then
            match write_storage_state fs output flow.storage_state with
            | .error e => .error e
            | .ok fs2 =>
              .ok (some (fs2,
                { status := .success, message := flow.message,
                  storage_state_path := some (renderPath output),
                  final_url := flow.final_url }))
          else if flow.status = "timeout" then
            .ok (some (fs, { status := .timeout, message := flow.message,
                             storage_state_path := none,
                             final_url := flow.final_url }))
          else if flow.status = "abort" then
            .ok (some (fs, { status := .abort, message := flow.message,
                             storage_state_path := none,
                             final_url := flow.final_url }))
          else .error (.runtimeError ("Unknown capture status: " ++ flow.status))

/-- Modelled from the spec: the AuthConfigError raised by the auth resolver.
The resolver (resolve_auth, AuthInput, AuthConfig, ResolvedAuth in
crawler.auth) is imported by the package root and the site crawler and
exercised by the tests, but its definition is not part of the sources; the
model follows spec sections 3 and 4.1. -/
inductive AuthErr where
  | configError (msg : String)
deriving DecidableEq

/-- Modelled from the spec: ResolvedAuth, holding an optional canonical
absolute storage-state path. -/
structure ResolvedAuth where
  storage_state : Option CanonPath
deriving DecidableEq

/-- Modelled from the spec: AuthConfig, the normal form of an auth input,
with a single optional storage_state field. -/
structure AuthConfig where
  storage_state : Option PathArg

/-- Modelled from the spec: AuthInput, a discriminated union of an
already-resolved value, a structured config value, and a string-keyed map. -/
inductive AuthInput where
  | resolved (r : ResolvedAuth)
  | config (c : AuthConfig)
  | map (entries : List (String × PathArg))

/-- Modelled from the spec: coercion of a string-keyed map to AuthConfig,
rejecting every key other than storage_state with a message naming the
unsupported keys. -/
def coerce_auth_map (entries : List (String × PathArg)) : Except AuthErr AuthConfig :=
  let unsupported := (entries.map Prod.fst).filter (fun k => k ≠ "storage_state")
  if unsupported.isEmpty then
    .ok { storage_state := (entries.find? (fun kv => kv.1 = "storage_state")).map Prod.snd }
  else
    .error (.configError ("Unsupported auth fields: " ++
      String.intercalate ", " unsupported))

/-- Modelled from the spec: the validation pipeline of resolve_auth on a
coerced AuthConfig — absent or blank storage_state resolves to none, and
otherwise the canonicalized path must exist, be a regular file, parse as
JSON, and parse to a JSON object. -/
def resolve_auth_config (env : Env) (fs : Fs) (c : AuthConfig) :
    Except AuthErr (Option ResolvedAuth) :=
  match c.storage_state with
  | none => .ok none
  | some .blank => .ok none
  | some (.path p) =>
    let canonical := canonicalize_output_path env p
    match fs.look canonical with
    | none => .error (.configError ("Storage state file not found: " ++
        renderPath canonical))
    | some .dir => .error (.configError ("Storage state path is a directory, not a file: " ++
        renderPath canonical))
    | some (.file none) => .error (.configError ("Storage state file contains invalid JSON: " ++
        renderPath canonical))
    | some (.file (some parsed)) =>
      if parsed.isObj then .ok (some { storage_state := some canonical })
      else .error (.configError ("Storage state file must contain a JSON object: " ++
        renderPath canonical))

/-- Modelled from the spec: resolve_auth — none resolves to none, an
already-resolved value is returned unchanged, a structured config or a map
is coerced (rejecting unsupported keys) and then validated. -/
def resolve_auth (env : Env) (fs : Fs) (input : Option AuthInput) :
    Except AuthErr (Option ResolvedAuth) :=
  match input with
  | none => .ok none
  | some (.resolved r) => .ok (some r)
  | some (.config c) => resolve_auth_config env fs c
  | some (.map entries) =>
    match coerce_auth_map entries with
    | .error e => .error e
    | .ok c => resolve_auth_config env fs c

/-! Concrete fixtures used to evaluate the definitions on closed inputs. -/

/-- Fixture process environment. -/
def wEnv : Env := { cwd := ["home", "alice", "work"], home := ["home", "alice"] }

/-- Fixture storage-state payload. -/
def wPayload : Json := Json.obj [("cookies", Json.arr []), ("origins", Json.arr [])]

/-- Fixture completion pattern that matches the dashboard URL. -/
def wPat : PatternInput :=
  { raw := "https://example.com/dashboard", compiles := true,
    search := fun u => u = "https://example.com/dashboard?ok=1" }

/-- Fixture polling tick that reaches the completion URL. -/
def wTickSuccess : PageTick :=
  { closed := false, url := "https://example.com/dashboard?ok=1", confirm := true,
    state_raises := false, state := wPayload, elapsed := 1 }

/-- Fixture driver world whose trace succeeds on the first tick. -/
def wWorldSuccess : FlowWorld :=
  { pw_available := true, launch_raises := false, new_context_raises := false,
    new_page_raises := false, goto_raises := false, trace := [wTickSuccess] }

/-- Fixture output path argument. -/
def wOut : PathInput := { absolute := true, homeRel := false, segs := ["tmp", "state.json"] }

/-- Filesystem produced by writing the fixture payload to the fixture target. -/
def wFsAfter : Fs := [(["tmp", "state.json"], FsEntry.file (some wPayload))]

/-- CaptureResult the fixture capture run produces. -/
def wResSuccess : CaptureResult :=
  { status := .success, message := "Capture completed and storage_state collected.",
    storage_state_path := some "/tmp/state.json",
    final_url := some "https://example.com/dashboard?ok=1" }

/-- Fixture one-context browser behind the CDP endpoint. -/
def wBrowser1 : Browser :=
  { contexts := [{ pages := [{ url := "https://app", title := some "App" }],
                   storage_state := wPayload }] }

/-- CaptureResult the fixture export run produces. -/
def wResExport : CaptureResult :=
  { status := .success,
    message := "Exported storage_state from running CDP browser (context=0).",
    storage_state_path := some "/tmp/state.json",
    final_url := some "https://app" }

/-- Fixture pages for the session-listing scenario. -/
def wPg0 : PageState := { url := "https://a", title := some "A" }

/-- Second fixture page, with a failing title lookup. -/
def wPg1 : PageState := { url := "https://b", title := none }

/-- Fixture browsing context without pages. -/
def wCtxEmpty : BrowserContext := { pages := [], storage_state := Json.null }

/-- Fixture browsing context holding the two fixture pages. -/
def wCtxPages : BrowserContext := { pages := [wPg0, wPg1], storage_state := wPayload }

/-- Fixture two-context browser: two pages in the first context, none in the
second. -/
def wBrowser2 : Browser := { contexts := [wCtxPages, wCtxEmpty] }

/-- Fixture completion pattern whose raw text does not compile as a regular
expression. -/
def wBadPat : PatternInput := { raw := "(", compiles := false, search := fun _ => false }

/-- Fixture completion pattern whose raw text is whitespace-only. -/
def wBlankPat : PatternInput := { raw := "  ", compiles := true, search := fun _ => false }

/-- Fixture filesystem with a directory at the fixture output target. -/
def wFsDir : Fs := [(["tmp", "state.json"], FsEntry.dir)]

/-- Fixture filesystem whose storage-state file holds non-JSON text. -/
def wFsBadJson : Fs := [(["tmp", "state.json"], FsEntry.file none)]

/-- Fixture filesystem whose storage-state file parses to a JSON array. -/
def wFsArrJson : Fs := [(["tmp", "state.json"], FsEntry.file (some (Json.arr [])))]

/-- Fixture filesystem with a valid storage-state file in the home
directory. -/
def wFsAuth : Fs := [(["home", "alice", "state.json"], FsEntry.file (some wPayload))]

/-- Absolute spelling of the home storage-state path. -/
def wAbsPath : PathInput := { absolute := true, homeRel := false, segs := ["home", "alice", "state.json"] }

/-- Home-relative spelling of the same storage-state path. -/
def wHomeRelPath : PathInput := { absolute := false, homeRel := true, segs := ["state.json"] }

/-! Helper lemmas shared by the claim theorems. -/

/-- Reading just after writing returns the written entry. -/
theorem Fs.look_write (fs : Fs) (p : CanonPath) (e : FsEntry) :
    (Fs.write fs p e).look p = some e := by
  simp [Fs.write, Fs.look]

/-- The storage-state writer on a JSON object: it succeeds and stores the
payload at the target. -/
theorem write_storage_state_obj (fs : Fs) (path : CanonPath)
    (entries : List (String × Json)) :
    write_storage_state fs path (some (Json.obj entries)) =
      .ok (Fs.write fs path (.file (some (Json.obj entries)))) := by
  simp [write_storage_state, Fs.write, Fs.look, Json.isObj]

/-- Shape of a successful storage-state write: the payload was a JSON object
and the result is the input filesystem with the payload stored at the
target. -/
theorem write_storage_state_ok_shape (fs : Fs) (path : CanonPath)
    (payload : Option Json) (fs2 : Fs)
    (h : write_storage_state fs path payload = .ok fs2) :
    ∃ entries, payload = some (Json.obj entries) ∧
      fs2 = Fs.write fs path (.file (some (Json.obj entries))) := by
  match payload with
  | none => simp [write_storage_state] at h
  | some Json.null => simp [write_storage_state] at h
  | some (Json.bool b) => simp [write_storage_state] at h
  | some (Json.num n) => simp [write_storage_state] at h
  | some (Json.str s) => simp [write_storage_state] at h
  | some (Json.arr xs) => simp [write_storage_state] at h
  | some (Json.obj entries) =>
    rw [write_storage_state_obj] at h
    exact ⟨entries, rfl, (Except.ok.injEq _ _ ▸ h).symm⟩

/-- Validation accepts a target that does not exist. -/
theorem validate_output_target_not_exists (fs : Fs) (path : CanonPath)
    (overwrite : Bool) (h : fs.pathExists path = false) :
    validate_output_target fs path overwrite = .ok () := by
  simp [validate_output_target, h]

/-- Coercion of a map with at least one unsupported key fails with a config
error. -/
theorem coerce_auth_map_unsupported (entries : List (String × PathArg))
    (h : ((entries.map Prod.fst).filter (fun s => s ≠ "storage_state")).isEmpty = false) :
    ∃ m, coerce_auth_map entries = .error (.configError m) := by
  refine ⟨"Unsupported auth fields: " ++ String.intercalate ", "
    ((entries.map Prod.fst).filter (fun s => s ≠ "storage_state")), ?_⟩
  simp only [coerce_auth_map]
  rw [h]
  rfl

/-- Validation rejects an existing target when overwrite is off. -/
theorem validate_output_target_exists_no_overwrite (fs : Fs) (path : CanonPath)
    (h : fs.pathExists path = true) :
    validate_output_target fs path false =
      .error (.configError ("storage_state output already exists: " ++
        renderPath path ++ " (use overwrite=True to replace)")) := by
  simp [validate_output_target, h]

/-- Validation rejects an existing directory target for every overwrite
flag, with one of the two config messages. -/
theorem validate_output_target_dir (fs : Fs) (path : CanonPath) (overwrite : Bool)
    (h : fs.look path = some .dir) :
    ∃ m, validate_output_target fs path overwrite = .error (.configError m) := by
  cases overwrite with
  | false =>
    exact ⟨_, validate_output_target_exists_no_overwrite fs path
      (by simp [Fs.pathExists, h])⟩
  | true =>
    exact ⟨"storage_state output path is a directory: " ++ renderPath path,
      by simp [validate_output_target, Fs.pathExists, Fs.isDir, h, FsEntry.isDir]⟩

/-- normStep ignores a "." segment. -/
theorem normStep_dot (acc : List String) : normStep acc "." = acc := by
  simp [normStep]

/-- normStep drops the previous segment at "..". -/
theorem normStep_updot (acc : List String) : normStep acc ".." = acc.dropLast := by
  simp only [normStep]
  rw [if_neg (by decide), if_pos (by decide)]

/-- normStep appends a plain segment. -/
theorem normStep_plain (acc : List String) (x : String)
    (h1 : x ≠ ".") (h2 : x ≠ "..") (h3 : x ≠ "") :
    normStep acc x = acc ++ [x] := by
  simp [normStep, h1, h2, h3]

/-- A redundant "." segment does not change normalization. -/
theorem normalizeSegs_append_dot (u s : List String) :
    normalizeSegs (u ++ "." :: s) = normalizeSegs (u ++ s) := by
  simp only [normalizeSegs, List.foldl_append, List.foldl_cons, normStep_dot]

/-- A plain segment followed by ".." does not change normalization. -/
theorem normalizeSegs_append_updot (u s : List String) (x : String)
    (h1 : x ≠ ".") (h2 : x ≠ "..") (h3 : x ≠ "") :
    normalizeSegs (u ++ x :: ".." :: s) = normalizeSegs (u ++ s) := by
  simp only [normalizeSegs, List.foldl_append, List.foldl_cons]
  rw [normStep_plain _ x h1 h2 h3, normStep_updot, List.dropLast_concat]

/-- pathRoot only inspects the spelling flags, not the segments. -/
theorem pathRoot_mk (env : Env) (a hr : Bool) (s : List String) :
    pathRoot env ⟨a, hr, s⟩ = if hr then env.home else if a then [] else env.cwd := rfl

/-- Accumulating appends in a left fold is the same as mapping and joining. -/
theorem foldl_append_eq_flatten {α β : Type} (g : α → List β) :
    ∀ (l : List α) (acc : List β),
      l.foldl (fun a x => a ++ g x) acc = acc ++ (l.map g).flatten
  | [], acc => by simp
  | x :: xs, acc => by
    simp [List.foldl_cons, foldl_append_eq_flatten g xs, List.append_assoc]

/-- Accumulating one of two appends in a left fold is the same as mapping
the branch bodies and joining. -/
theorem foldl_ite_append {α β : Type} (c : α → Bool) (f g : α → List β) :
    ∀ (l : List α) (acc : List β),
      l.foldl (fun a x => if c x then a ++ f x else a ++ g x) acc =
        acc ++ (l.map (fun x => if c x then f x else g x)).flatten
  | [], acc => by simp
  | x :: xs, acc => by
    by_cases h : c x <;>
      simp [h, List.foldl_cons, foldl_ite_append c f g xs, List.append_assoc]

/-- Case analysis of a terminated capture call: a success result carries the
rendered output path and extends the filesystem with a written JSON object,
while a timeout or abort result carries no path and leaves the filesystem
unchanged. -/
theorem capture_session_async_ok_cases
    (p : PathInput) (pat : PatternInput) (start_url : Option String)
    (t pi : ℚ) (ow hl cb : Bool) (env : Env) (fs : Fs) (world : FlowWorld)
    (fs' : Fs) (r : CaptureResult)
    (hok : capture_session_async (.path p) pat start_url t pi ow hl cb env fs world =
      .ok (some (fs', r))) :
    (r.status = .success ∧
      r.storage_state_path = some (renderPath (canonicalize_output_path env p)) ∧
      ∃ entries, fs' = Fs.write fs (canonicalize_output_path env p)
        (.file (some (Json.obj entries))))
    ∨ ((r.status = .timeout ∨ r.status = .abort) ∧
       r.storage_state_path = none ∧ fs' = fs) := by
  simp only [capture_session_async] at hok
  split at hok
  · exact absurd hok (by simp)
  · split at hok
    · exact absurd hok (by simp)
    · split at hok
      · exact absurd hok (by simp)
      · split at hok
        · exact absurd hok (by simp)
        · split at hok
          · exact absurd hok (by simp)
          · exact absurd hok (by simp)
          · split at hok
            · rename_i heq
              split at hok
              · exact absurd hok (by simp)
              · rename_i fs2 hw
                obtain ⟨entries, -, hfs2⟩ := write_storage_state_ok_shape _ _ _ _ hw
                simp only [Except.ok.injEq, Option.some.injEq, Prod.mk.injEq] at hok
                obtain ⟨h1, h2⟩ := hok
                subst h1
                subst h2
                exact Or.inl ⟨rfl, rfl, entries, hfs2⟩
            · split at hok
              · simp only [Except.ok.injEq, Option.some.injEq, Prod.mk.injEq] at hok
                obtain ⟨h1, h2⟩ := hok
                subst h1
                subst h2
                exact Or.inr ⟨Or.inl rfl, rfl, rfl⟩
              · split at hok
                · simp only [Except.ok.injEq, Option.some.injEq, Prod.mk.injEq] at hok
                  obtain ⟨h1, h2⟩ := hok
                  subst h1
                  subst h2
                  exact Or.inr ⟨Or.inr rfl, rfl, rfl⟩
                · exact absurd hok (by simp)

/-- Shape of a successful CDP export: the result reports success and carries
the rendered output path. -/
theorem export_ok_shape (out : PathArg) (cdp_url : String) (ci : Int)
    (ow pw : Bool) (env : Env) (fs : Fs) (ep : CdpEndpoint) (fs2 : Fs)
    (r : CaptureResult)
    (h : export_cdp_storage_state_async out cdp_url ci ow pw env fs ep = .ok (fs2, r)) :
    r.status = .success ∧ r.storage_state_path.isSome = true := by
  match out with
  | .blank => exact absurd h (by simp [export_cdp_storage_state_async])
  | .path p =>
    simp only [export_cdp_storage_state_async] at h
    split at h
    · exact absurd h (by simp)
    · split at h
      · exact absurd h (by simp)
      · split at h
        · exact absurd h (by simp)
        · split at h
          · exact absurd h (by simp)
          · split at h
            · exact absurd h (by simp)
            · split at h
              · exact absurd h (by simp)
              · split at h
                · exact absurd h (by simp)
                · split at h
                  · exact absurd h (by simp)
                  · split at h
                    · simp only [Except.ok.injEq, Prod.mk.injEq] at h
                      obtain ⟨-, h2⟩ := h
                      subst h2
                      exact ⟨rfl, rfl⟩
                    · simp only [Except.ok.injEq, Prod.mk.injEq] at h
                      obtain ⟨-, h2⟩ := h
                      subst h2
                      exact ⟨rfl, rfl⟩

/-- C4: writing any JSON object through the storage-state writer succeeds,
and re-reading the written file parses back to a value deep-equal to the
payload. -/
theorem c4_storage_state_round_trip (fs : Fs) (path : CanonPath)
    (entries : List (String × Json)) :
    write_storage_state fs path (some (Json.obj entries)) =
      .ok (Fs.write fs path (.file (some (Json.obj entries)))) ∧
    (Fs.write fs path (.file (some (Json.obj entries)))).look path =
      some (.file (some (Json.obj entries))) :=
  ⟨write_storage_state_obj fs path entries, Fs.look_write fs path _⟩

/-- C10: SessionCaptureConfigError subclasses SessionCaptureError which
subclasses ValueError, so every config/usage error raised by the subsystem
is also an instance of the runtime error class and of ValueError, and a
handler catching the runtime kind also catches every config error. -/
theorem c10_config_error_is_runtime_error_and_valueerror :
    ∀ msg other : String,
      PyClass.isSubclassOf (CaptureErr.configError msg).pyClass
        (CaptureErr.runtimeError other).pyClass = true ∧
      PyClass.isSubclassOf (CaptureErr.configError msg).pyClass
        PyClass.valueErrorClass = true ∧
      PyClass.isSubclassOf (CaptureErr.runtimeError msg).pyClass
        PyClass.valueErrorClass = true ∧
      (CaptureErr.configError msg).isConfig = true := by
  intro msg other
  exact ⟨rfl, rfl, rfl, rfl⟩

/-- C1: every CaptureResult produced by capture_session_async or by
export_cdp_storage_state_async has storage_state_path set exactly when the
status equals success, and timeout and abort results always carry
storage_state_path = none. -/
theorem c1_storage_state_path_iff_success :
    (∀ (p : PathInput) (pat : PatternInput) (start_url : Option String)
       (t pi : ℚ) (ow hl cb : Bool) (env : Env) (fs : Fs) (world : FlowWorld)
       (fs' : Fs) (r : CaptureResult),
       capture_session_async (.path p) pat start_url t pi ow hl cb env fs world =
         .ok (some (fs', r)) →
       ((r.storage_state_path.isSome = true ↔ r.status = .success) ∧
        ((r.status = .timeout ∨ r.status = .abort) → r.storage_state_path = none)))
    ∧ (∀ (out : PathArg) (cdp_url : String) (ci : Int) (ow pw : Bool)
         (env : Env) (fs : Fs) (ep : CdpEndpoint) (fs2 : Fs) (r : CaptureResult),
         export_cdp_storage_state_async out cdp_url ci ow pw env fs ep = .ok (fs2, r) →
         (r.storage_state_path.isSome = true ↔ r.status = .success)) := by
  constructor
  · intro p pat su t pi ow hl cb env fs world fs' r hok
    rcases capture_session_async_ok_cases p pat su t pi ow hl cb env fs world fs' r hok with
      ⟨hs, hp, -⟩ | ⟨hs, hp, -⟩
    · refine ⟨by simp [hs, hp], ?_⟩
      intro hc
      rcases hc with hc | hc <;> rw [hc] at hs <;> exact absurd hs (by decide)
    · rcases hs with hs | hs <;> exact ⟨by simp [hs, hp], fun _ => hp⟩
  · intro out cdp_url ci ow pw env fs ep fs2 r hok
    obtain ⟨hs, hp⟩ := export_ok_shape out cdp_url ci ow pw env fs ep fs2 r hok
    exact ⟨fun _ => hs, fun _ => hp⟩

/-- Witness for C1: a concrete success capture run and a concrete export run
with the storage_state_path/status equivalence instantiated on them. -/
theorem c1_storage_state_path_iff_success_witness :
    (capture_session_async (.path wOut) wPat none 300 1 false false false wEnv []
        wWorldSuccess = .ok (some (wFsAfter, wResSuccess)) ∧
      ((wResSuccess.storage_state_path.isSome = true ↔ wResSuccess.status = .success) ∧
       ((wResSuccess.status = .timeout ∨ wResSuccess.status = .abort) →
         wResSuccess.storage_state_path = none))) ∧
    (export_cdp_storage_state_async (.path wOut) "http://127.0.0.1:9222" 0 false true
        wEnv [] (some wBrowser1) = .ok (wFsAfter, wResExport) ∧
      (wResExport.storage_state_path.isSome = true ↔ wResExport.status = .success)) :=
  ⟨⟨rfl, c1_storage_state_path_iff_success.1 wOut wPat none 300 1 false false false
      wEnv [] wWorldSuccess wFsAfter wResSuccess rfl⟩,
   ⟨rfl, c1_storage_state_path_iff_success.2 (.path wOut) "http://127.0.0.1:9222" 0
      false true wEnv [] (some wBrowser1) wFsAfter wResExport rfl⟩⟩

/-- C2: a terminated capture call leaves the filesystem unchanged when the
outcome is timeout or abort, and on success the output target exists and
its content re-parses as a JSON object. -/
theorem c2_capture_writes_exactly_on_success :
    ∀ (p : PathInput) (pat : PatternInput) (start_url : Option String)
      (t pi : ℚ) (ow hl cb : Bool) (env : Env) (fs : Fs) (world : FlowWorld)
      (fs' : Fs) (r : CaptureResult),
      capture_session_async (.path p) pat start_url t pi ow hl cb env fs world =
        .ok (some (fs', r)) →
      (((r.status = .timeout ∨ r.status = .abort) → fs' = fs) ∧
       (r.status = .success →
         fs'.pathExists (canonicalize_output_path env p) = true ∧
         ∃ entries, fs'.look (canonicalize_output_path env p) =
           some (.file (some (Json.obj entries))))) := by
  intro p pat su t pi ow hl cb env fs world fs' r hok
  rcases capture_session_async_ok_cases p pat su t pi ow hl cb env fs world fs' r hok with
    ⟨hs, -, entries, hfs⟩ | ⟨hs, -, hfs⟩
  · refine ⟨?_, fun _ => ?_⟩
    · intro hc
      rcases hc with hc | hc <;> rw [hc] at hs <;> exact absurd hs (by decide)
    · subst hfs
      exact ⟨by simp [Fs.pathExists, Fs.look_write], entries, Fs.look_write fs _ _⟩
  · refine ⟨fun _ => hfs, fun hsucc => ?_⟩
    rcases hs with hs | hs <;> rw [hs] at hsucc <;> exact absurd hsucc (by decide)

/-- Witness for C2: the conclusion instantiated on a concrete success run. -/
theorem c2_capture_writes_exactly_on_success_witness :
    capture_session_async (.path wOut) wPat none 300 1 false false false wEnv []
      wWorldSuccess = .ok (some (wFsAfter, wResSuccess)) ∧
    (((wResSuccess.status = .timeout ∨ wResSuccess.status = .abort) →
        wFsAfter = ([] : Fs)) ∧
     (wResSuccess.status = .success →
        wFsAfter.pathExists (canonicalize_output_path wEnv wOut) = true ∧
        ∃ entries, wFsAfter.look (canonicalize_output_path wEnv wOut) =
          some (.file (some (Json.obj entries))))) :=
  ⟨rfl, c2_capture_writes_exactly_on_success wOut wPat none 300 1 false false false
    wEnv [] wWorldSuccess wFsAfter wResSuccess rfl⟩

/-- C7: listing CDP sessions of a connected browser yields one entry per
open page, enumerated in context order and then page order, a context with
zero pages contributing exactly one entry with page_index none and empty
URL; in particular a two-context browser holdings two and zero pages yields
exactly three entries with page_index 0 and 1 under context 0 and
page_index none under context 1. -/
theorem c7_list_cdp_sessions_enumeration :
    (∀ (cdp_url : String) (browser : Browser), pyStrip cdp_url ≠ "" →
      list_cdp_sessions_async cdp_url true (some browser) =
        .ok ((browser.contexts.enum.map (fun ce =>
          if ce.2.pages.isEmpty then
            [{ context_index := ce.1, page_index := none, url := "", title := none }]
          else
            ce.2.pages.enum.map (fun pe =>
              { context_index := ce.1, page_index := some pe.1,
                url := pe.2.url, title := pe.2.title }))).flatten))
    ∧ (∀ (pg0 pg1 : PageState) (s0 s1 : Json) (cdp_url : String),
        pyStrip cdp_url ≠ "" →
        list_cdp_sessions_async cdp_url true
          (some { contexts := [{ pages := [pg0, pg1], storage_state := s0 },
                               { pages := [], storage_state := s1 }] }) =
          .ok [{ context_index := 0, page_index := some 0, url := pg0.url, title := pg0.title },
               { context_index := 0, page_index := some 1, url := pg1.url, title := pg1.title },
               { context_index := 1, page_index := none, url := "", title := none }]) := by
  have main : ∀ (cdp_url : String) (browser : Browser), pyStrip cdp_url ≠ "" →
      list_cdp_sessions_async cdp_url true (some browser) =
        .ok ((browser.contexts.enum.map (fun ce =>
          if ce.2.pages.isEmpty then
            [{ context_index := ce.1, page_index := none, url := "", title := none }]
          else
            ce.2.pages.enum.map (fun pe =>
              { context_index := ce.1, page_index := some pe.1,
                url := pe.2.url, title := pe.2.title }))).flatten) := by
    intro cdp_url browser hne
    simp only [list_cdp_sessions_async, normalize_cdp_url, if_neg hne, Bool.not_true]
    rw [foldl_ite_append]
    simp
  refine ⟨main, ?_⟩
  intro pg0 pg1 s0 s1 cdp_url hne
  rw [main cdp_url _ hne]
  simp [List.enum, List.enumFrom]

/-- Witness for C7: the two-context scenario evaluated on fixture pages and
a concrete endpoint URL. -/
theorem c7_list_cdp_sessions_enumeration_witness :
    pyStrip "http://127.0.0.1:9222" ≠ "" ∧
    list_cdp_sessions_async "http://127.0.0.1:9222" true (some wBrowser2) =
      .ok [{ context_index := 0, page_index := some 0, url := wPg0.url, title := wPg0.title },
           { context_index := 0, page_index := some 1, url := wPg1.url, title := wPg1.title },
           { context_index := 1, page_index := none, url := "", title := none }] :=
  ⟨by decide,
   c7_list_cdp_sessions_enumeration.2 wPg0 wPg1 wPayload Json.null
     "http://127.0.0.1:9222" (by decide)⟩

/-- C8: export rejects a negative context_index with a config error
regardless of the endpoint state (before connecting); a connected browser
with zero contexts produces a runtime error; and an index at least the
number N of contexts (N at least 1) produces a config error citing the
valid range 0..N-1. -/
theorem c8_export_context_index_validation :
    (∀ (p : PathInput) (cdp_url : String) (ci : Int) (ow pw : Bool) (env : Env)
       (fs : Fs) (ep : CdpEndpoint), ci < 0 →
       export_cdp_storage_state_async (.path p) cdp_url ci ow pw env fs ep =
         .error (.configError "context_index must be greater than or equal to 0"))
    ∧ (∀ (p : PathInput) (cdp_url : String) (ci : Int) (ow : Bool) (env : Env) (fs : Fs),
        ¬ ci < 0 → pyStrip cdp_url ≠ "" →
        fs.pathExists (canonicalize_output_path env p) = false →
        export_cdp_storage_state_async (.path p) cdp_url ci ow true env fs
          (some { contexts := [] }) =
          .error (.runtimeError ("No browser contexts available at CDP endpoint: " ++
            pyStrip cdp_url)))
    ∧ (∀ (p : PathInput) (cdp_url : String) (ci : Int) (ow : Bool) (env : Env) (fs : Fs)
         (c0 : BrowserContext) (rest : List BrowserContext),
        ¬ ci < 0 → pyStrip cdp_url ≠ "" →
        fs.pathExists (canonicalize_output_path env p) = false →
        ci ≥ (((c0 :: rest).length : Nat) : Int) →
        export_cdp_storage_state_async (.path p) cdp_url ci ow true env fs
          (some { contexts := c0 :: rest }) =
          .error (.configError ("context_index out of range: " ++ toString ci ++
            " (available: 0.." ++ toString ((c0 :: rest).length - 1) ++ ")"))) := by
  refine ⟨?_, ?_, ?_⟩
  · intro p cdp_url ci ow pw env fs ep hci
    simp only [export_cdp_storage_state_async, if_pos hci]
  · intro p cdp_url ci ow env fs hci hcdp hfs
    simp only [export_cdp_storage_state_async, if_neg hci, normalize_cdp_url,
      if_neg hcdp, validate_output_target_not_exists fs _ ow hfs, Bool.not_true]
    rfl
  · intro p cdp_url ci ow env fs c0 rest hci hcdp hfs hrange
    simp only [export_cdp_storage_state_async, if_neg hci, normalize_cdp_url,
      if_neg hcdp, validate_output_target_not_exists fs _ ow hfs, Bool.not_true,
      if_pos hrange]
    rfl

/-- Witness for C8: concrete runs of all three rejection paths, with the
two-context browser and index 5 yielding the range message 0..1. -/
theorem c8_export_context_index_validation_witness :
    ((-1 : Int) < 0 ∧
      export_cdp_storage_state_async (.path wOut) "http://127.0.0.1:9222" (-1) false
        true wEnv [] (some wBrowser2) =
        .error (.configError "context_index must be greater than or equal to 0")) ∧
    (export_cdp_storage_state_async (.path wOut) "http://127.0.0.1:9222" 0 false
        true wEnv [] (some { contexts := [] }) =
        .error (.runtimeError
          "No browser contexts available at CDP endpoint: http://127.0.0.1:9222")) ∧
    ((5 : Int) ≥ ((wBrowser2.contexts.length : Nat) : Int) ∧
      export_cdp_storage_state_async (.path wOut) "http://127.0.0.1:9222" 5 false
        true wEnv [] (some wBrowser2) =
        .error (.configError "context_index out of range: 5 (available: 0..1)")) :=
  ⟨⟨by decide,
    c8_export_context_index_validation.1 wOut "http://127.0.0.1:9222" (-1) false true
      wEnv [] (some wBrowser2) (by decide)⟩,
   c8_export_context_index_validation.2.1 wOut "http://127.0.0.1:9222" 0 false wEnv []
     (by decide) (by decide) rfl,
   ⟨by decide,
    c8_export_context_index_validation.2.2 wOut "http://127.0.0.1:9222" 5 false wEnv []
      wCtxPages [wCtxEmpty] (by decide) (by decide) rfl (by decide)⟩⟩

/-- C9: on every exit path of the interactive capture flow — success,
timeout, abort, a trace that has not terminated, and any internal exception
raised after the browser is acquired — the launched browser is no longer
live when execute_capture_flow returns or its exception propagates. -/
theorem c9_browser_released_on_every_exit_path :
    ∀ (start_url : Option String) (pat : PatternInput) (t pi : ℚ)
      (hl cb : Bool) (world : FlowWorld),
      (execute_capture_flow start_url pat t pi hl cb world).2.browser_live = false := by
  intro su pat t pi hl cb world
  simp only [execute_capture_flow, withPlaywright]
  split
  · rfl
  · split
    · rfl
    · rfl

/-- Counterexample to C3: with every other setting valid, a completion-URL
pattern that does not compile as a regular expression makes
capture_session_async propagate the regex compilation error, which is not
the config/usage error kind. -/
theorem c3_counterexample_regex_error_not_config :
    capture_session_async (.path wOut) wBadPat none 300 1 false false false wEnv []
      wWorldSuccess = .error (.regexError "invalid completion_url_pattern: (") ∧
    (CaptureErr.regexError "invalid completion_url_pattern: (").isConfig = false ∧
    (CaptureErr.regexError "invalid completion_url_pattern: (").pyClass ≠
      PyClass.sessionCaptureConfigErrorClass :=
  ⟨rfl, rfl, by decide⟩

/-- C3 amended: every listed invalid configuration is rejected independently
of the driver world and trace, hence before any browser resource is
acquired: the empty output path, the empty completion pattern, a
non-positive timeout, a non-positive poll interval, an existing target
without overwrite and an existing-directory target each raise a
config/usage error, while a completion pattern that does not compile as a
regular expression raises the regex compilation error (re.error, not the
config kind), still before the browser is launched. -/
theorem c3_amended_invalid_config_rejected_before_browser :
    (∀ (pat : PatternInput) (su : Option String) (t pi : ℚ) (ow hl cb : Bool)
       (env : Env) (fs : Fs) (world : FlowWorld),
       capture_session_async .blank pat su t pi ow hl cb env fs world =
         .error (.configError "output_path must be a non-empty path"))
    ∧ (∀ (p : PathInput) (pat : PatternInput) (su : Option String) (t pi : ℚ)
         (ow hl cb : Bool) (env : Env) (fs : Fs) (world : FlowWorld),
        pyStrip pat.raw = "" →
        capture_session_async (.path p) pat su t pi ow hl cb env fs world =
          .error (.configError "completion_url_pattern must be provided"))
    ∧ (∀ (p : PathInput) (pat : PatternInput) (su : Option String) (t pi : ℚ)
         (ow hl cb : Bool) (env : Env) (fs : Fs) (world : FlowWorld),
        pyStrip pat.raw ≠ "" → t ≤ 0 →
        capture_session_async (.path p) pat su t pi ow hl cb env fs world =
          .error (.configError "timeout_seconds must be greater than 0"))
    ∧ (∀ (p : PathInput) (pat : PatternInput) (su : Option String) (t pi : ℚ)
         (ow hl cb : Bool) (env : Env) (fs : Fs) (world : FlowWorld),
        pyStrip pat.raw ≠ "" → ¬ t ≤ 0 → pi ≤ 0 →
        capture_session_async (.path p) pat su t pi ow hl cb env fs world =
          .error (.configError "poll_interval must be greater than 0"))
    ∧ (∀ (p : PathInput) (pat : PatternInput) (su : Option String) (t pi : ℚ)
         (hl cb : Bool) (env : Env) (fs : Fs) (world : FlowWorld),
        pyStrip pat.raw ≠ "" → ¬ t ≤ 0 → ¬ pi ≤ 0 →
        fs.pathExists (canonicalize_output_path env p) = true →
        capture_session_async (.path p) pat su t pi false hl cb env fs world =
          .error (.configError ("storage_state output already exists: " ++
            renderPath (canonicalize_output_path env p) ++
            " (use overwrite=True to replace)")))
    ∧ (∀ (p : PathInput) (pat : PatternInput) (su : Option String) (t pi : ℚ)
         (ow hl cb : Bool) (env : Env) (fs : Fs) (world : FlowWorld),
        pyStrip pat.raw ≠ "" → ¬ t ≤ 0 → ¬ pi ≤ 0 →
        fs.look (canonicalize_output_path env p) = some .dir →
        ∃ m, capture_session_async (.path p) pat su t pi ow hl cb env fs world =
          .error (.configError m))
    ∧ (∀ (p : PathInput) (pat : PatternInput) (su : Option String) (t pi : ℚ)
         (ow hl cb : Bool) (env : Env) (fs : Fs) (world : FlowWorld),
        pyStrip pat.raw ≠ "" → ¬ t ≤ 0 → ¬ pi ≤ 0 →
        fs.pathExists (canonicalize_output_path env p) = false →
        world.pw_available = true → pat.compiles = false →
        capture_session_async (.path p) pat su t pi ow hl cb env fs world =
          .error (.regexError ("invalid completion_url_pattern: " ++ pat.raw))) := by
  refine ⟨?_, ?_, ?_, ?_, ?_, ?_, ?_⟩
  · intro pat su t pi ow hl cb env fs world
    rfl
  · intro p pat su t pi ow hl cb env fs world hps
    simp only [capture_session_async, if_pos hps]
  · intro p pat su t pi ow hl cb env fs world hps ht
    simp only [capture_session_async, if_neg hps, if_pos ht]
  · intro p pat su t pi ow hl cb env fs world hps ht hpi
    simp only [capture_session_async, if_neg hps, if_neg ht, if_pos hpi]
  · intro p pat su t pi hl cb env fs world hps ht hpi hex
    simp only [capture_session_async, if_neg hps, if_neg ht, if_neg hpi,
      validate_output_target_exists_no_overwrite fs _ hex]
  · intro p pat su t pi ow hl cb env fs world hps ht hpi hdir
    obtain ⟨m, hv⟩ :=
      validate_output_target_dir fs (canonicalize_output_path env p) ow hdir
    exact ⟨m, by simp only [capture_session_async, if_neg hps, if_neg ht,
      if_neg hpi, hv]⟩
  · intro p pat su t pi ow hl cb env fs world hps ht hpi hex hpw hcomp
    simp only [capture_session_async, if_neg hps, if_neg ht, if_neg hpi,
      validate_output_target_not_exists fs _ ow hex, execute_capture_flow,
      hpw, hcomp, Bool.not_true, Bool.not_false]
    rfl

/-- Witness for C3 amended: each rejection path evaluated on concrete
configurations. -/
theorem c3_amended_invalid_config_witness :
    capture_session_async .blank wPat none 300 1 false false false wEnv []
      wWorldSuccess = .error (.configError "output_path must be a non-empty path") ∧
    capture_session_async (.path wOut) wBlankPat none 300 1 false false false wEnv []
      wWorldSuccess = .error (.configError "completion_url_pattern must be provided") ∧
    capture_session_async (.path wOut) wPat none 0 1 false false false wEnv []
      wWorldSuccess = .error (.configError "timeout_seconds must be greater than 0") ∧
    capture_session_async (.path wOut) wPat none 300 0 false false false wEnv []
      wWorldSuccess = .error (.configError "poll_interval must be greater than 0") ∧
    capture_session_async (.path wOut) wPat none 300 1 false false false wEnv
      wFsAfter wWorldSuccess =
      .error (.configError ("storage_state output already exists: " ++
        renderPath (canonicalize_output_path wEnv wOut) ++
        " (use overwrite=True to replace)")) ∧
    (∃ m, capture_session_async (.path wOut) wPat none 300 1 true false false wEnv
      wFsDir wWorldSuccess = .error (.configError m)) ∧
    capture_session_async (.path wOut) wBadPat none 300 1 false false false wEnv []
      wWorldSuccess =
      .error (.regexError ("invalid completion_url_pattern: " ++ wBadPat.raw)) :=
  ⟨c3_amended_invalid_config_rejected_before_browser.1 wPat none 300 1 false false
     false wEnv [] wWorldSuccess,
   c3_amended_invalid_config_rejected_before_browser.2.1 wOut wBlankPat none 300 1
     false false false wEnv [] wWorldSuccess (by decide),
   c3_amended_invalid_config_rejected_before_browser.2.2.1 wOut wPat none 0 1
     false false false wEnv [] wWorldSuccess (by decide) (by decide),
   c3_amended_invalid_config_rejected_before_browser.2.2.2.1 wOut wPat none 300 0
     false false false wEnv [] wWorldSuccess (by decide) (by decide) (by decide),
   c3_amended_invalid_config_rejected_before_browser.2.2.2.2.1 wOut wPat none 300 1
     false false wEnv wFsAfter wWorldSuccess (by decide) (by decide) (by decide) rfl,
   c3_amended_invalid_config_rejected_before_browser.2.2.2.2.2.1 wOut wPat none 300 1
     true false false wEnv wFsDir wWorldSuccess (by decide) (by decide) (by decide) rfl,
   c3_amended_invalid_config_rejected_before_browser.2.2.2.2.2.2 wOut wBadPat none 300
     1 false false false wEnv [] wWorldSuccess (by decide) (by decide) (by decide)
     rfl rfl rfl⟩

/-- C5 (spec-modelled): the auth resolver raises a config error when the
named storage-state file is missing, is a directory instead of a regular
file, holds non-JSON content, or parses to a non-object, and for every map
input containing a key other than storage_state. -/
theorem c5_resolve_auth_rejections :
    (∀ (env : Env) (fs : Fs) (p : PathInput),
       fs.look (canonicalize_output_path env p) = none →
       resolve_auth env fs (some (.map [("storage_state", .path p)])) =
         .error (.configError ("Storage state file not found: " ++
           renderPath (canonicalize_output_path env p))))
    ∧ (∀ (env : Env) (fs : Fs) (p : PathInput),
        fs.look (canonicalize_output_path env p) = some .dir →
        resolve_auth env fs (some (.map [("storage_state", .path p)])) =
          .error (.configError ("Storage state path is a directory, not a file: " ++
            renderPath (canonicalize_output_path env p))))
    ∧ (∀ (env : Env) (fs : Fs) (p : PathInput),
        fs.look (canonicalize_output_path env p) = some (.file none) →
        resolve_auth env fs (some (.map [("storage_state", .path p)])) =
          .error (.configError ("Storage state file contains invalid JSON: " ++
            renderPath (canonicalize_output_path env p))))
    ∧ (∀ (env : Env) (fs : Fs) (p : PathInput) (j : Json),
        fs.look (canonicalize_output_path env p) = some (.file (some j)) →
        j.isObj = false →
        resolve_auth env fs (some (.map [("storage_state", .path p)])) =
          .error (.configError ("Storage state file must contain a JSON object: " ++
            renderPath (canonicalize_output_path env p))))
    ∧ (∀ (env : Env) (fs : Fs) (entries : List (String × PathArg))
         (k : String) (v : PathArg),
        (k, v) ∈ entries → k ≠ "storage_state" →
        ∃ m, resolve_auth env fs (some (.map entries)) =
          .error (.configError m)) := by
  refine ⟨?_, ?_, ?_, ?_, ?_⟩
  · intro env fs p hlook
    simp [resolve_auth, coerce_auth_map, resolve_auth_config, hlook]
  · intro env fs p hlook
    simp [resolve_auth, coerce_auth_map, resolve_auth_config, hlook]
  · intro env fs p hlook
    simp [resolve_auth, coerce_auth_map, resolve_auth_config, hlook]
  · intro env fs p j hlook hobj
    simp [resolve_auth, coerce_auth_map, resolve_auth_config, hlook, hobj]
  · intro env fs entries k v hmem hk
    have hkmem : k ∈ (entries.map Prod.fst).filter (fun s => s ≠ "storage_state") := by
      refine List.mem_filter.mpr ⟨?_, by simp [hk]⟩
      exact List.mem_map.mpr ⟨(k, v), hmem, rfl⟩
    have hne : ((entries.map Prod.fst).filter
        (fun s => s ≠ "storage_state")).isEmpty = false := by
      cases hfe : ((entries.map Prod.fst).filter
          (fun s => s ≠ "storage_state")).isEmpty
      · rfl
      · rw [List.isEmpty_iff] at hfe
        rw [hfe] at hkmem
        exact absurd hkmem (List.not_mem_nil k)
    obtain ⟨m, hc⟩ := coerce_auth_map_unsupported entries hne
    refine ⟨m, ?_⟩
    simp only [resolve_auth, hc]

/-- Witness for C5: the five rejection paths evaluated on concrete inputs. -/
theorem c5_resolve_auth_rejections_witness :
    resolve_auth wEnv [] (some (.map [("storage_state", .path wOut)])) =
      .error (.configError ("Storage state file not found: " ++
        renderPath (canonicalize_output_path wEnv wOut))) ∧
    resolve_auth wEnv wFsDir (some (.map [("storage_state", .path wOut)])) =
      .error (.configError ("Storage state path is a directory, not a file: " ++
        renderPath (canonicalize_output_path wEnv wOut))) ∧
    resolve_auth wEnv wFsBadJson (some (.map [("storage_state", .path wOut)])) =
      .error (.configError ("Storage state file contains invalid JSON: " ++
        renderPath (canonicalize_output_path wEnv wOut))) ∧
    resolve_auth wEnv wFsArrJson (some (.map [("storage_state", .path wOut)])) =
      .error (.configError ("Storage state file must contain a JSON object: " ++
        renderPath (canonicalize_output_path wEnv wOut))) ∧
    (∃ m, resolve_auth wEnv wFsAuth
      (some (.map [("storage_state", .path wOut), ("profile", .blank)])) =
      .error (.configError m)) :=
  ⟨c5_resolve_auth_rejections.1 wEnv [] wOut rfl,
   c5_resolve_auth_rejections.2.1 wEnv wFsDir wOut rfl,
   c5_resolve_auth_rejections.2.2.1 wEnv wFsBadJson wOut rfl,
   c5_resolve_auth_rejections.2.2.2.1 wEnv wFsArrJson wOut (Json.arr []) rfl rfl,
   c5_resolve_auth_rejections.2.2.2.2 wEnv wFsAuth
     [("storage_state", .path wOut), ("profile", .blank)] "profile" .blank
     (by decide) (by decide)⟩

/-- C6 (spec-modelled): for a valid JSON-object storage-state file the
resolver returns the same canonical absolute path for every spelling with
the same canonicalization; relative, home-relative and redundant-segment
spellings canonicalize identically; and resolving an already-resolved value
returns it unchanged. -/
theorem c6_resolve_auth_canonicalization_idempotent :
    (∀ (env : Env) (fs : Fs) (p q : PathInput) (j : Json), j.isObj = true →
       fs.look (canonicalize_output_path env p) = some (.file (some j)) →
       canonicalize_output_path env q = canonicalize_output_path env p →
       resolve_auth env fs (some (.map [("storage_state", .path q)])) =
         .ok (some { storage_state := some (canonicalize_output_path env p) }))
    ∧ (∀ (env : Env) (segs : List String),
        canonicalize_output_path env ⟨false, false, segs⟩ =
          canonicalize_output_path env ⟨true, false, env.cwd ++ segs⟩)
    ∧ (∀ (env : Env) (segs : List String),
        canonicalize_output_path env ⟨false, true, segs⟩ =
          canonicalize_output_path env ⟨true, false, env.home ++ segs⟩)
    ∧ (∀ (env : Env) (a hr : Bool) (s1 s2 : List String),
        canonicalize_output_path env ⟨a, hr, s1 ++ "." :: s2⟩ =
          canonicalize_output_path env ⟨a, hr, s1 ++ s2⟩)
    ∧ (∀ (env : Env) (a hr : Bool) (s1 s2 : List String) (x : String),
        x ≠ "." → x ≠ ".." → x ≠ "" →
        canonicalize_output_path env ⟨a, hr, s1 ++ x :: ".." :: s2⟩ =
          canonicalize_output_path env ⟨a, hr, s1 ++ s2⟩)
    ∧ (∀ (env : Env) (fs : Fs) (r : ResolvedAuth),
        resolve_auth env fs (some (.resolved r)) = .ok (some r)) := by
  refine ⟨?_, ?_, ?_, ?_, ?_, ?_⟩
  · intro env fs p q j hobj hlook hq
    simp [resolve_auth, coerce_auth_map, resolve_auth_config, hq, hlook, hobj]
  · intro env segs
    simp [canonicalize_output_path, pathRoot_mk]
  · intro env segs
    simp [canonicalize_output_path, pathRoot_mk]
  · intro env a hr s1 s2
    simp only [canonicalize_output_path, pathRoot_mk]
    rw [← List.append_assoc, ← List.append_assoc]
    exact normalizeSegs_append_dot _ _
  · intro env a hr s1 s2 x h1 h2 h3
    simp only [canonicalize_output_path, pathRoot_mk]
    rw [← List.append_assoc, ← List.append_assoc]
    exact normalizeSegs_append_updot _ _ x h1 h2 h3
  · intro env fs r
    rfl

/-- Witness for C6: the absolute, home-relative and redundant spellings of
the same fixture file all resolve to the same canonical path, and a
resolved value passes through unchanged. -/
theorem c6_resolve_auth_canonicalization_witness :
    Json.isObj wPayload = true ∧
    canonicalize_output_path wEnv wHomeRelPath = canonicalize_output_path wEnv wAbsPath ∧
    resolve_auth wEnv wFsAuth (some (.map [("storage_state", .path wHomeRelPath)])) =
      .ok (some { storage_state := some (canonicalize_output_path wEnv wAbsPath) }) ∧
    canonicalize_output_path wEnv ⟨false, false, ["state.json"]⟩ =
      canonicalize_output_path wEnv ⟨true, false, wEnv.cwd ++ ["state.json"]⟩ ∧
    canonicalize_output_path wEnv ⟨true, false, ["home", ".", "alice"]⟩ =
      canonicalize_output_path wEnv ⟨true, false, ["home", "alice"]⟩ ∧
    canonicalize_output_path wEnv ⟨true, false, ["home", "tmp", "..", "alice"]⟩ =
      canonicalize_output_path wEnv ⟨true, false, ["home", "alice"]⟩ ∧
    resolve_auth wEnv wFsAuth
      (some (.resolved { storage_state := some ["home", "alice", "state.json"] })) =
      .ok (some { storage_state := some ["home", "alice", "state.json"] }) :=
  ⟨rfl, by decide,
   c6_resolve_auth_canonicalization_idempotent.1 wEnv wFsAuth wAbsPath wHomeRelPath
     wPayload rfl rfl (by decide),
   c6_resolve_auth_canonicalization_idempotent.2.1 wEnv ["state.json"],
   c6_resolve_auth_canonicalization_idempotent.2.2.2.1 wEnv true false ["home"]
     ["alice"],
   c6_resolve_auth_canonicalization_idempotent.2.2.2.2.1 wEnv true false ["home"]
     ["alice"] "tmp" (by decide) (by decide) (by decide),
   c6_resolve_auth_canonicalization_idempotent.2.2.2.2.2 wEnv wFsAuth
     { storage_state := some ["home", "alice", "state.json"] }⟩

end Crawler
